import Mathlib

/-!
Verification of the release-notes scraper (`src/changelog.py`) against its
natural-language specification.  The Python code is shallowly embedded:
pure helper methods of `ReleaseNotesScraper` become Lean functions over an
explicit `DateTime` record (Python's timezone-naive `datetime`), network
calls become an explicit `fetch : String → FetchResult` parameter, and the
BeautifulSoup / ElementTree trees the code walks are modelled by small
records carrying exactly the fields the code reads (tag, class list, text
content, href list, raw markup).
-/

set_option maxRecDepth 4000

namespace Changelog

/-! ## Python `datetime` model

Timezone-naive `datetime` down to second precision (the program never
compares at sub-second granularity).  Comparison is lexicographic on the
components, exactly as Python compares `datetime` values.
-/

structure DateTime where
  year : Int
  month : Nat
  day : Nat
  hour : Nat
  minute : Nat
  second : Nat
deriving Repr, DecidableEq

/-- Python `datetime` strict comparison `a < b`: lexicographic on
(year, month, day, hour, minute, second). -/
def DateTime.ltb (a b : DateTime) : Bool :=
  if a.year ≠ b.year then a.year < b.year
  else if a.month ≠ b.month then a.month < b.month
  else if a.day ≠ b.day then a.day < b.day
  else if a.hour ≠ b.hour then a.hour < b.hour
  else if a.minute ≠ b.minute then a.minute < b.minute
  else a.second < b.second

/-- Python `datetime` comparison `a <= b`. -/
def DateTime.leb (a b : DateTime) : Bool :=
  !(DateTime.ltb b a)

/-! Calendar arithmetic: `timedelta` subtraction on naive datetimes is
exact second arithmetic.  We convert a civil date to a day count and back
with the standard proleptic-Gregorian algorithms (floor division
throughout, realised with `Int.ediv`/`Int.emod`, whose divisor is always
positive here). -/

/-- Days since 1970-01-01 of a civil date (proleptic Gregorian). -/
def daysFromCivil (y : Int) (m d : Nat) : Int :=
  let y' : Int := if m ≤ 2 then y - 1 else y
  let era : Int := Int.ediv y' 400
  let yoe : Int := y' - era * 400
  let mp : Int := if m > 2 then (m : Int) - 3 else (m : Int) + 9
  let doy : Int := Int.ediv (153 * mp + 2) 5 + (d : Int) - 1
  let doe : Int := yoe * 365 + Int.ediv yoe 4 - Int.ediv yoe 100 + doy
  era * 146097 + doe - 719468

/-- Civil date (year, month, day) of a day count since 1970-01-01. -/
def civilFromDays (z : Int) : Int × Nat × Nat :=
  let z' := z + 719468
  let era : Int := Int.ediv z' 146097
  let doe : Int := z' - era * 146097
  let yoe : Int :=
    Int.ediv (doe - Int.ediv doe 1460 + Int.ediv doe 36524 - Int.ediv doe 146096) 365
  let y : Int := yoe + era * 400
  let doy : Int := doe - (365 * yoe + Int.ediv yoe 4 - Int.ediv yoe 100)
  let mp : Int := Int.ediv (5 * doy + 2) 153
  let d : Int := doy - Int.ediv (153 * mp + 2) 5 + 1
  let m : Int := if mp < 10 then mp + 3 else mp - 9
  (if m ≤ 2 then y + 1 else y, m.toNat, d.toNat)

/-- Seconds since 1970-01-01 00:00:00 of a `DateTime`. -/
def DateTime.toSec (t : DateTime) : Int :=
  86400 * daysFromCivil t.year t.month t.day
    + 3600 * (t.hour : Int) + 60 * (t.minute : Int) + (t.second : Int)

/-- `DateTime` of a count of seconds since 1970-01-01 00:00:00. -/
def DateTime.fromSec (s : Int) : DateTime :=
  let days := Int.ediv s 86400
  let rem := (Int.emod s 86400).toNat
  let c := civilFromDays days
  { year := c.1, month := c.2.1, day := c.2.2,
    hour := rem / 3600, minute := rem % 3600 / 60, second := rem % 60 }

/-- Python `dt - timedelta(seconds=s)` on a naive datetime. -/
def DateTime.subSec (t : DateTime) (s : Int) : DateTime :=
  DateTime.fromSec (t.toSec - s)

/-! ## Data model: release items and release groups

`ReleaseItem` and the release-group dictionaries built throughout
`changelog.py` (`{'date': …, 'date_str': …, 'items': […], 'url': …}`). -/

structure ReleaseItem where
  text : String
  category : String
  urls : List String
deriving Repr, DecidableEq

structure Release where
  date : Option DateTime
  dateStr : String
  items : List ReleaseItem
  url : String
deriving Repr, DecidableEq

/-! ## Scraper construction (`ReleaseNotesScraper.__init__`, lines 343-381)

The constructor receives `months`, `days` (both may be `None`; Python's
`elif days:` / `elif months:` treat `0` like `None`), `start_date` and
`end_date`.  `self.end_date = end_date or datetime.now()`, and the cutoff
is computed from the first applicable of start-date / days / months /
default, truncating to midnight in the last three branches. -/

/-- Python truthiness of an `Option Nat` argument (`None` and `0` are falsy). -/
def optTruthy (o : Option Nat) : Bool :=
  o.getD 0 ≠ 0

/-- `dt.replace(hour=0, minute=0, second=0, microsecond=0)`. -/
def truncMidnight (t : DateTime) : DateTime :=
  { t with hour := 0, minute := 0, second := 0 }

/-- The cutoff date computed in `__init__`:
`start_date` if given, else midnight of `now - timedelta(days=days)` if
`days` is truthy, else midnight of `now - timedelta(days=months*30)` if
`months` is truthy, else midnight of `now - timedelta(days=12*30)`. -/
def initCutoffDate (now : DateTime) (months days : Option Nat)
    (startDate : Option DateTime) : DateTime :=
  match startDate with
  | some sd => sd
  | none =>
    if optTruthy days then
      truncMidnight (now.subSec (86400 * (days.getD 0 : Int)))
    else if optTruthy months then
      truncMidnight (now.subSec (86400 * 30 * (months.getD 0 : Int)))
    else
      truncMidnight (now.subSec (86400 * 360))

/-- `self.end_date = end_date or datetime.now()` (a `datetime` is always
truthy, so this is just a `None` default). -/
def initEndDate (now : DateTime) (endDate : Option DateTime) : DateTime :=
  endDate.getD now

/-- `main` (lines 2913-2919): a `--end-date YYYY-MM-DD` argument is parsed
at midnight and then moved to the end of that day, 23:59:59. -/
def endOfDay (t : DateTime) : DateTime :=
  { t with hour := 23, minute := 59, second := 59 }

/-- Python's `str.lower()` (ASCII case folding, which is all the program's
keyword matching relies on). -/
def lowerStr (s : String) : String :=
  String.mk (s.data.map Char.toLower)

/-! ## Date-range and category filters -/

/-- `_filter_by_date` (lines 1184-1192): keep a release iff its date is
present, `date >= cutoff`, and `end_date is None or date <= end_date`. -/
def filterByDate (cutoffDate : DateTime) (endDate : Option DateTime)
    (releases : List Release) : List Release :=
  releases.filter fun r =>
    match r.date with
    | none => false
    | some d =>
      DateTime.leb cutoffDate d &&
        (match endDate with
         | none => true
         | some e => DateTime.leb d e)

/-- `strict_mode = self.days is not None or self.start_date is not None`
(lines 683 and 1091).  Note this is an `is not None` test, not Python
truthiness. -/
def strictMode (days : Option Nat) (startDate : Option DateTime) : Bool :=
  days.isSome || startDate.isSome

/-- The inline date filter of the blog scrapers (`_scrape_cloud_blog`
lines 685-694 and `_scrape_developers_blog` lines 1093-1103): dated
releases are range-checked as in `_filter_by_date`; undated releases are
kept exactly when strict mode is off. -/
def blogDateFilter (strict : Bool) (cutoffDate : DateTime)
    (endDate : Option DateTime) (releases : List Release) : List Release :=
  releases.filter fun r =>
    match r.date with
    | none => !strict
    | some d =>
      DateTime.leb cutoffDate d &&
        (match endDate with
         | none => true
         | some e => DateTime.leb d e)

/-- `_filter_by_category` (lines 1194-1212): with no allow-list pass all;
otherwise keep the items whose lower-cased category is listed, and drop a
release whose item list becomes empty. -/
def filterByCategory (categories : Option (List String))
    (releases : List Release) : List Release :=
  match categories with
  | none => releases
  | some cats =>
    (releases.map fun r =>
        { r with items := r.items.filter fun i => cats.contains (lowerStr i.category) }).filter
      fun r => !r.items.isEmpty

/-! ## Classifier (`_categorize_item`, lines 498-574) -/

/-- Contiguous-sublist test on character lists. -/
def subInChars (sub : List Char) : List Char → Bool
  | [] => sub.isEmpty
  | c :: cs => sub.isPrefixOf (c :: cs) || subInChars sub cs

/-- Python's `sub in s` substring test. -/
def pyIn (sub s : String) : Bool :=
  subInChars sub.data s.data

/-- The fragment of a BeautifulSoup element that `_categorize_item` reads:
its `class` attribute list and its `get_text(strip=True)` result. -/
structure SoupElement where
  classes : List String
  textContent : String
deriving Repr, DecidableEq

def securityKeywords : List String :=
  ["security", "vulnerability", "cve", "patch"]

def breakingKeywords : List String :=
  ["breaking change", "breaking change:", "migration required", "major version update"]

def previewKeywords : List String :=
  ["(preview)", "public preview", "in preview", "preview)", "early access", "beta"]

def gaKeywords : List String :=
  ["generally available", "general availability", "(ga)", "is now ga", "is in ga",
   "in general availability"]

def deprecatedKeywords : List String :=
  ["deprecated", "deprecation", "obsolete", "removed", "discontinued"]

def fixedKeywords : List String :=
  ["fixed", "fix:", "resolved", "bug"]

def issueKeywords : List String :=
  ["issue", "known issue", "workaround"]

def changeKeywords : List String :=
  ["changed:", "migration required", "version updates"]

def announcementKeywords : List String :=
  ["announced", "announcement", "introducing"]

def librariesKeywords : List String :=
  ["library", "sdk", "api", "client library", "framework"]

/-- `any(keyword in text_lower for keyword in …)`. -/
def keywordMatch (textLower : String) (kws : List String) : Bool :=
  kws.any fun k => pyIn k textLower

/-- The text-analysis half of `_categorize_item` (lines 529-574): the text
is lower-cased and tested against the keyword groups in source order. -/
def categorizeText (text : String) : String :=
  let t := lowerStr text
  if keywordMatch t securityKeywords then "security"
  else if keywordMatch t breakingKeywords then "breaking"
  else if keywordMatch t previewKeywords then "public-preview"
  else if keywordMatch t gaKeywords then "ga"
  else if keywordMatch t deprecatedKeywords then "deprecated"
  else if keywordMatch t fixedKeywords then "fixed"
  else if keywordMatch t issueKeywords then "issue"
  else if keywordMatch t changeKeywords then "change"
  else if keywordMatch t announcementKeywords then "announcement"
  else if keywordMatch t librariesKeywords then "libraries"
  else "update"

/-- The `class`-based branch of `_categorize_item` (lines 502-520):
`release-feature` additionally checks for a `(Preview)` marker in the
element text; `none` when no marker class matches. -/
def classHintCategory (e : SoupElement) : Option String :=
  let cs := String.intercalate " " e.classes
  if pyIn "release-feature" cs then
    some (if pyIn "(Preview)" e.textContent || pyIn "(preview)" e.textContent then
            "public-preview"
          else "ga")
  else if pyIn "release-changed" cs then some "change"
  else if pyIn "release-announcement" cs then some "announcement"
  else if pyIn "release-breaking" cs then some "breaking"
  else if pyIn "release-issue" cs then some "issue"
  else none

/-- Lines 522-527: `if not text and element: text = element.get_text(…)`
— the text the keyword chain runs on (`""` plays Python's falsy `None`). -/
def textForCategorize (element : Option SoupElement) (text : Option String) :
    String :=
  match text with
  | some t0 =>
    if t0 = "" then
      match element with
      | some e => e.textContent
      | none => ""
    else t0
  | none =>
    match element with
    | some e => e.textContent
    | none => ""

/-- `_categorize_item(element, text)`: the `class`-based branch first,
then the keyword chain on the given or element text, with `update` for
empty text. -/
def categorizeItem (element : Option SoupElement) (text : Option String) : String :=
  match (match element with
         | some e => classHintCategory e
         | none => none) with
  | some c => c
  | none =>
    let t := textForCategorize element text
    if t = "" then "update" else categorizeText t

/-- `VALID_CATEGORIES` (lines 284-296). -/
def VALID_CATEGORIES : List String :=
  ["ga", "public-preview", "breaking", "security", "deprecated", "fixed", "issue",
   "change", "announcement", "libraries", "update"]

/-- The accordion-title → category mapping of `_parse_antigravity_sections`
(lines 1717-1724). -/
def antigravityAccordionCategory (title : String) : String :=
  if lowerStr title = "improvements" then "ga"
  else if lowerStr title = "fixes" then "fixed"
  else if lowerStr title = "patches" then "fixed"
  else "update"

/-- Modelled from the spec's words (§4.7): an ordered keyword-priority
table, first match wins, `update` when no group matches.  Used to compare
the if-chain of `_categorize_item` against the spec's description. -/
def specKeywordPriority : List (List String × String) :=
  [(securityKeywords, "security"), (breakingKeywords, "breaking"),
   (previewKeywords, "public-preview"), (gaKeywords, "ga"),
   (deprecatedKeywords, "deprecated"), (fixedKeywords, "fixed"),
   (issueKeywords, "issue"), (changeKeywords, "change"),
   (announcementKeywords, "announcement"), (librariesKeywords, "libraries")]

/-- Modelled from the spec's words (§4.7): test the ordered groups, first
match wins, default `update`. -/
def specFirstMatchCategory (text : String) : String :=
  match specKeywordPriority.find? (fun p => keywordMatch (lowerStr text) p.1) with
  | some p => p.2
  | none => "update"

/-! ## Feed entry date resolution (`_parse_xml_feed`, lines 1249-1260)

An ElementTree `entry.find(tag)` returns the first child with that tag;
`entry.find('atom:published', namespaces)` resolves the prefix through the
namespace dict, which we keep in prefixed form. -/

structure XmlElem where
  tag : String
  text : Option String
deriving Repr, DecidableEq

/-- `entry.find(tag)`: first child element with the given tag. -/
def elemFind (entry : List XmlElem) (tag : String) : Option XmlElem :=
  entry.find? fun c => c.tag = tag

/-- The date-element lookup chain of `_parse_xml_feed`:
`pubDate`, then `atom:published`, then unprefixed `published`, then
`atom:updated`, then unprefixed `updated`; each step only fires when every
earlier lookup found no element. -/
def resolveDateElem (entry : List XmlElem) : Option XmlElem :=
  match elemFind entry "pubDate" with
  | some e => some e
  | none =>
    match elemFind entry "atom:published" with
    | some e => some e
    | none =>
      match elemFind entry "published" with
      | some e => some e
      | none =>
        match elemFind entry "atom:updated" with
        | some e => some e
        | none => elemFind entry "updated"

/-! ## Fetch / fallback controller (`scrape`, lines 576-623;
`_get_fallback_url`, lines 1111-1115; the fetch part of `_scrape_html`,
lines 1117-1182)

HTTP is modelled by an explicit `fetch : String → FetchResult` function.
`requests.get` + `raise_for_status` either succeeds with a body, raises a
`RequestException` carrying a response status (`httpError`), or raises one
with no response (timeout / connection error, `netError`).  The XML and
HTML parsing stages that consume a successfully fetched body are abstract
parameters: the claim is about the control flow around them. -/

inductive FetchResult where
  | success (body : String)
  | httpError (status : Nat)
  | netError
deriving Repr, DecidableEq

/-- `_get_fallback_url`: look the service name up in
`SERVICE_HTML_FALLBACKS` (modelled as an association list). -/
def getFallbackUrl (serviceName : Option String)
    (fallbacks : List (String × String)) : Option String :=
  match serviceName with
  | none => none
  | some n => (fallbacks.find? fun p => p.1 = n).map Prod.snd

/-- The feed branch of `scrape` (lines 587-608): GET the primary URL; on
success parse it as a feed; on a 404 with a registered fallback, GET the
fallback once and use its HTML result (`_scrape_html` returns `[]` when
that fetch fails too); on any other failure return `[]`.  The second
component records every GET issued, in order. -/
def scrapeFeedWithFallback (fetch : String → FetchResult)
    (parseXmlResult parseHtmlResult : String → List Release)
    (url : String) (fallbackUrl : Option String) : List Release × List String :=
  match fetch url with
  | .success body => (parseXmlResult body, [url])
  | .httpError status =>
    if status = 404 then
      match fallbackUrl with
      | some fb =>
        (match fetch fb with
         | .success body => (parseHtmlResult body, [url, fb])
         | _ => ([], [url, fb]))
      | none => ([], [url])
    else ([], [url])
  | .netError => ([], [url])

/-- The per-source loop of `main` (lines 2960-2975): each source is
scraped independently; its result does not depend on any other source. -/
def scrapeAllSources (fetch : String → FetchResult)
    (parseXmlResult parseHtmlResult : String → List Release)
    (sources : List (String × Option String)) : List (List Release) :=
  sources.map fun s =>
    (scrapeFeedWithFallback fetch parseXmlResult parseHtmlResult s.1 s.2).1

/-! ## URL normalization (`_normalize_urls`, lines 2134-2162) -/

/-- Python `str.isspace()`-style whitespace for `str.strip()`. -/
def isPyWs (c : Char) : Bool :=
  c = ' ' || c = '\t' || c = '\n' || c = '\r' || c = '\x0b' || c = '\x0c'

/-- `str.strip()` on a character list. -/
def trimChars (l : List Char) : List Char :=
  ((l.dropWhile isPyWs).reverse.dropWhile isPyWs).reverse

/-- `str.strip()`. -/
def pyStrip (s : String) : String :=
  String.mk (trimChars s.data)

/-- `str.startswith(p)`. -/
def pyStartsWith (s p : String) : Bool :=
  p.data.isPrefixOf s.data

def imageExtensions : List String :=
  [".png", ".jpg", ".gif", ".jpeg", ".webp", ".svg", ".ico"]

def imageHosts : List String :=
  ["blogger.googleusercontent.com", "bp.blogspot.com"]

/-- One iteration of the `_normalize_urls` loop body. -/
def normalizeUrlStep (baseHost : String) (acc : List String) (url0 : String) :
    List String :=
  if url0 = "" then acc
  else
    let url1 := pyStrip url0
    if pyStartsWith url1 "#" then acc
    else
      let keep :=
        if pyStartsWith url1 "/" then some (baseHost ++ url1)
        else if !pyStartsWith url1 "http" then none
        else some url1
      match keep with
      | none => acc
      | some u =>
        if imageExtensions.any (fun ext => pyIn ext (lowerStr u)) then acc
        else if imageHosts.any (fun h => pyIn h u) then acc
        else if acc.contains u then acc
        else acc ++ [u]

/-- `_normalize_urls(urls, base_host)`: convert relative URLs to absolute,
drop anchors, protocol-less relatives and image URLs, dedup. -/
def normalizeUrls (baseHost : String) (urls : List String) : List String :=
  urls.foldl (normalizeUrlStep baseHost) []

/-! ## Firebase structured extraction (`_parse_firebase_releases`,
lines 1822-1951)

A DOM node is abstracted by the fields the code reads: its class list,
`get_text(strip=True)`, `str(node)` raw markup and the hrefs of its `a`
descendants.  The sibling walk below a dated header (lines 1846-1919) is
modelled from the point where a header has already matched a date pattern:
the callers pass the list of forward siblings up to the next header of the
same tag, each tagged with how the loop dispatches on its name. -/

structure DomFrag where
  classes : List String
  text : String
  raw : String
  hrefs : List String
deriving Repr, DecidableEq

inductive FbSibling where
  /-- a `ul`/`ol` sibling: its direct `li` children -/
  | listNode (lis : List DomFrag)
  /-- a bare `li` sibling -/
  | liNode (f : DomFrag)
  /-- a `p` or `div` sibling -/
  | paraNode (f : DomFrag)
  /-- any other tag: the loop ignores it -/
  | otherNode
deriving Repr, DecidableEq

def DomFrag.toElement (f : DomFrag) : SoupElement :=
  ⟨f.classes, f.text⟩

/-- One iteration of the sibling walk below a dated Firebase header
(lines 1851-1886).  List items need text longer than 5, paragraphs and
divs longer than 10; the hrefs are attached as-is — this path never calls
`_normalize_urls`. -/
def firebaseSiblingStep (acc : List ReleaseItem) (sib : FbSibling) :
    List ReleaseItem :=
  match sib with
  | .listNode lis =>
    acc ++ lis.filterMap fun li =>
      if li.text ≠ "" ∧ li.text.length > 5 then
        some { text := li.raw,
               category := categorizeItem (some li.toElement) (some li.text),
               urls := li.hrefs }
      else none
  | .liNode f =>
    if f.text ≠ "" ∧ f.text.length > 5 then
      acc ++ [{ text := f.raw,
                category := categorizeItem (some f.toElement) (some f.text),
                urls := f.hrefs }]
    else acc
  | .paraNode f =>
    if f.text ≠ "" ∧ f.text.length > 10 then
      acc ++ [{ text := f.raw,
                category := categorizeItem (some f.toElement) (some f.text),
                urls := f.hrefs }]
    else acc
  | .otherNode => acc

/-- The items collected from all siblings of a dated Firebase header
(lines 1849-1886). -/
def firebaseSiblingItems (sibs : List FbSibling) : List ReleaseItem :=
  sibs.foldl firebaseSiblingStep []

/-- The release built for one dated Firebase header (lines 1846-1919),
given the already-matched date and the header's forward siblings.  When
the siblings yield nothing and the header text is long enough, the header
text itself becomes the single item (the nested-`ul` rescue pass of lines
1889-1903 is represented by the sibling list the caller supplies). -/
def parseFirebaseSection (pageUrl : String) (dateFound : DateTime)
    (dateStr : String) (headerText : String) (sibs : List FbSibling) :
    List Release :=
  let items := firebaseSiblingItems sibs
  let items :=
    if items.isEmpty ∧ headerText.length > 15 then
      [{ text := headerText,
         category := categorizeItem none (some headerText),
         urls := [] }]
    else items
  if items.isEmpty then []
  else [{ date := some dateFound, dateStr := dateStr, items := items, url := pageUrl }]

/-- The tail of `_scrape_html` (lines 1163-1167): items that collected no
URLs get the page URL as a fallback; items with URLs are left untouched. -/
def fillEmptyUrls (pageUrl : String) (releases : List Release) : List Release :=
  releases.map fun r =>
    { r with
      items := r.items.map fun i =>
        if i.urls.isEmpty then { i with urls := [pageUrl] } else i }

/-- The post-parse pipeline of `_scrape_html` (lines 1163-1175): fill
empty URL lists, then filter by date, then by category. -/
def scrapeHtmlPost (pageUrl : String) (cutoffDate : DateTime)
    (endDate : Option DateTime) (categories : Option (List String))
    (releases : List Release) : List Release :=
  filterByCategory categories
    (filterByDate cutoffDate endDate (fillEmptyUrls pageUrl releases))

/-! ## Unstructured extraction and its dedup
(`_parse_unstructured_releases`, lines 2027-2113)

Both passes of the function — the `release-*` div scan and the text-node
scan — append a one-item release for a candidate element, guarded by a
parsed nearby date `>= cutoff`, a content length above 20, and the
duplicate check against every item text already accumulated.  A candidate
carries the fields the code reads; `date` is the result of `_parse_date`
on the matched date string (`none` when nothing parsed). -/

structure UnstructuredCand where
  classes : List String
  text : String
  raw : String
  hrefs : List String
  date : Option DateTime
  dateStr : String
deriving Repr, DecidableEq

/-- The duplicate test (lines 2057-2062 and 2096-2101): some already
collected item has exactly this raw markup as its text. -/
def releasesContainText (releases : List Release) (t : String) : Bool :=
  releases.any fun r => r.items.any fun i => i.text = t

/-- One candidate of `_parse_unstructured_releases`: append a one-item
release unless a guard fails or the raw markup is already collected. -/
def unstructuredStep (cutoffDate : DateTime) (pageUrl : String)
    (releases : List Release) (c : UnstructuredCand) : List Release :=
  match c.date with
  | none => releases
  | some d =>
    if DateTime.leb cutoffDate d then
      if c.text ≠ "" ∧ c.text.length > 20 then
        if releasesContainText releases c.raw then releases
        else
          releases ++
            [{ date := some d, dateStr := c.dateStr,
               items := [{ text := c.raw,
                           category := categorizeItem
                             (some ⟨c.classes, c.text⟩) (some c.text),
                           urls := normalizeUrls "https://cloud.google.com" c.hrefs }],
               url := pageUrl }]
      else releases
    else releases

/-- `_parse_unstructured_releases`: fold the candidates of both passes, in
document order, over the releases accumulated so far. -/
def parseUnstructuredReleases (cutoffDate : DateTime) (pageUrl : String)
    (init : List Release) (cands : List UnstructuredCand) : List Release :=
  cands.foldl (unstructuredStep cutoffDate pageUrl) init

/-- The strategy ladder of `_scrape_html` (lines 1156-1161): the
unstructured pass runs only when the structured pass collected nothing. -/
def scrapeHtmlCollect (cutoffDate : DateTime) (pageUrl : String)
    (structured : List Release) (cands : List UnstructuredCand) : List Release :=
  if structured.isEmpty then
    parseUnstructuredReleases cutoffDate pageUrl structured cands
  else structured

/-- All item raw texts of a release list, in order. -/
def releaseItemTexts (releases : List Release) : List String :=
  (releases.map fun r => r.items.map ReleaseItem.text).flatten

/-! ## Relative date normalization (`_parse_relative_date`, lines 739-800)

The input is stripped and lower-cased, then matched against
`re.match(r'(\d+)\s*(d|h|m|min|hr|day|hour|minute|week|w)s?\s*ago', …)`,
then the `just now` / `now` / `yesterday` shortcuts, then the four
`strptime` formats with a year, then the two month-day formats without a
year (defaulting to the current year and rolling back one year for a
future date).  The regex is transliterated: `(\d+)` takes the maximal
leading digit run (giving digits back can never help, since no
alternative starts with a digit), the alternation tries its branches in
source order with the optional `s` tried greedy-first, `\s*` before `ago`
must consume every space (a leftover space can never match `a`), and
`re.match` needs only a prefix match. -/

/-- Decimal value of a digit run (`int(…)`). -/
def digitsVal (ds : List Char) : Nat :=
  ds.foldl (fun n c => n * 10 + (c.toNat - 48)) 0

/-- `\s*ago` at the given position. -/
def agoTailMatch (l : List Char) : Bool :=
  "ago".data.isPrefixOf (l.dropWhile isPyWs)

/-- The alternatives of the unit group, in the pattern's order. -/
def unitAlternatives : List (List Char) :=
  ["d".data, "h".data, "m".data, "min".data, "hr".data,
   "day".data, "hour".data, "minute".data, "week".data, "w".data]

/-- Does this unit alternative, followed by `s?\s*ago`, match here? -/
def unitMatchesAt (rest : List Char) (u : List Char) : Bool :=
  u.isPrefixOf rest &&
    (let r := rest.drop u.length
     ("s".data.isPrefixOf r && agoTailMatch (r.drop 1)) || agoTailMatch r)

/-- The whole `ago` regex: on success, the numeric value of group 1 and
the unit alternative that matched as group 2. -/
def matchAgo (l : List Char) : Option (Nat × List Char) :=
  let ds := l.takeWhile Char.isDigit
  if ds.isEmpty then none
  else
    let rest := (l.dropWhile Char.isDigit).dropWhile isPyWs
    match unitAlternatives.find? (unitMatchesAt rest) with
    | some u => some (digitsVal ds, u)
    | none => none

/-- The unit dispatch of lines 750-757, in seconds (`timedelta(days=…)`,
`hours`, `minutes`, `weeks`).  The source chain has no `else`: an
unlisted unit falls through, modelled by `none`. -/
def unitSeconds (u : List Char) : Option Int :=
  if u = "d".data ∨ u = "day".data then some 86400
  else if u = "h".data ∨ u = "hr".data ∨ u = "hour".data then some 3600
  else if u = "m".data ∨ u = "min".data ∨ u = "minute".data then some 60
  else if u = "w".data ∨ u = "week".data then some 604800
  else none

/-! `strptime` model for the six formats the function tries.  `%b`/`%B`
match a month name (the input is already lower-cased), a space in the
format matches a nonempty whitespace run, `%d` matches one or two digits
valued 1-31 (leading zero allowed), `%Y` matches exactly four digits, the
whole string must be consumed, and constructing the `datetime` validates
the day against the month length (year 1900 for the year-less formats). -/

def monthAbbrevNames : List (List Char) :=
  ["jan".data, "feb".data, "mar".data, "apr".data, "may".data, "jun".data,
   "jul".data, "aug".data, "sep".data, "oct".data, "nov".data, "dec".data]

def monthFullNames : List (List Char) :=
  ["january".data, "february".data, "march".data, "april".data, "may".data,
   "june".data, "july".data, "august".data, "september".data, "october".data,
   "november".data, "december".data]

/-- Match one of the twelve month names at the front; month index 1-12. -/
def parseMonthName (names : List (List Char)) (l : List Char) :
    Option (Nat × List Char) :=
  (names.zip (List.range' 1 12)).findSome? fun p =>
    if p.1.isPrefixOf l then some (p.2, l.drop p.1.length) else none

/-- A space in a `strptime` format: a nonempty whitespace run. -/
def parseWs1 : List Char → Option (List Char)
  | [] => none
  | c :: cs => if isPyWs c then some (cs.dropWhile isPyWs) else none

/-- `%d`: `3[01]|[12]\d|0[1-9]|[1-9]`, tried in that order. -/
def parseDay2 : List Char → Option (Nat × List Char)
  | [] => none
  | [c] => if c.isDigit ∧ c ≠ '0' then some (c.toNat - 48, []) else none
  | c1 :: c2 :: rest =>
    if c1 = '3' ∧ (c2 = '0' ∨ c2 = '1') then some (30 + (c2.toNat - 48), rest)
    else if (c1 = '1' ∨ c1 = '2') ∧ c2.isDigit then
      some (10 * (c1.toNat - 48) + (c2.toNat - 48), rest)
    else if c1 = '0' ∧ c2.isDigit ∧ c2 ≠ '0' then some (c2.toNat - 48, rest)
    else if c1.isDigit ∧ c1 ≠ '0' then some (c1.toNat - 48, c2 :: rest)
    else none

/-- `%Y`: exactly four digits. -/
def parseYear4 : List Char → Option (Int × List Char)
  | a :: b :: c :: d :: rest =>
    if a.isDigit ∧ b.isDigit ∧ c.isDigit ∧ d.isDigit then
      some ((digitsVal [a, b, c, d] : Int), rest)
    else none
  | _ => none

def isLeapYear (y : Int) : Bool :=
  (Int.emod y 4 = 0 ∧ Int.emod y 100 ≠ 0) ∨ Int.emod y 400 = 0

def daysInMonth (y : Int) (m : Nat) : Nat :=
  if m = 2 then (if isLeapYear y then 29 else 28)
  else if m = 4 ∨ m = 6 ∨ m = 9 ∨ m = 11 then 30
  else 31

/-- `datetime(year, month, day)` construction check. -/
def validYmd (y : Int) (m d : Nat) : Bool :=
  1 ≤ y ∧ 9999 ≥ y ∧ 1 ≤ m ∧ m ≤ 12 ∧ 1 ≤ d ∧ d ≤ daysInMonth y m

/-- `strptime` with format `%b %d, %Y` / `%B %d, %Y` (comma = true) or
`%b %d %Y` / `%B %d %Y` (comma = false). -/
def strptimeMonthDayYear (names : List (List Char)) (comma : Bool)
    (l : List Char) : Option DateTime :=
  match parseMonthName names l with
  | none => none
  | some (m, r1) =>
    match parseWs1 r1 with
    | none => none
    | some r2 =>
      match parseDay2 r2 with
      | none => none
      | some (d, r3) =>
        let afterSep : Option (List Char) :=
          if comma then
            match r3 with
            | ',' :: r4 => parseWs1 r4
            | _ => none
          else parseWs1 r3
        match afterSep with
        | none => none
        | some r5 =>
          match parseYear4 r5 with
          | none => none
          | some (y, r6) =>
            if r6 = [] ∧ validYmd y m d then
              some ⟨y, m, d, 0, 0, 0⟩
            else none

/-- `strptime` with format `%b %d` / `%B %d`: the year defaults to 1900. -/
def strptimeMonthDay (names : List (List Char)) (l : List Char) :
    Option DateTime :=
  match parseMonthName names l with
  | none => none
  | some (m, r1) =>
    match parseWs1 r1 with
    | none => none
    | some r2 =>
      match parseDay2 r2 with
      | none => none
      | some (d, r3) =>
        if r3 = [] ∧ validYmd 1900 m d then
          some ⟨1900, m, d, 0, 0, 0⟩
        else none

/-- Lines 769-780: the four formats with a year, in source order. -/
def parseDateWithYear (l : List Char) : Option DateTime :=
  match strptimeMonthDayYear monthAbbrevNames true l with
  | some dt => some dt
  | none =>
    match strptimeMonthDayYear monthFullNames true l with
    | some dt => some dt
    | none =>
      match strptimeMonthDayYear monthAbbrevNames false l with
      | some dt => some dt
      | none => strptimeMonthDayYear monthFullNames false l

/-- Lines 783-798: the two month-day formats without a year. -/
def parseMonthDayNoYear (l : List Char) : Option DateTime :=
  match strptimeMonthDay monthAbbrevNames l with
  | some dt => some dt
  | none => strptimeMonthDay monthFullNames l

/-- Lines 791-796: give the year-less date the current year, and take the
previous year when that puts it in the future. -/
def applyNoYearRule (now parsed : DateTime) : DateTime :=
  let p1 := { parsed with year := now.year }
  if DateTime.ltb now p1 then { p1 with year := now.year - 1 } else p1

/-- `_parse_relative_date` after the `strip().lower()` normalization. -/
def parseRelativeCore (now : DateTime) (l : List Char) : Option DateTime :=
  let rest : Option DateTime :=
    if subInChars "just now".data l || l = "now".data then some now
    else if subInChars "yesterday".data l then some (now.subSec 86400)
    else
      match parseDateWithYear l with
      | some dt => some dt
      | none =>
        match parseMonthDayNoYear l with
        | some dt => some (applyNoYearRule now dt)
        | none => none
  match matchAgo l with
  | some (n, u) =>
    match unitSeconds u with
    | some k => some (now.subSec (k * (n : Int)))
    | none => rest
  | none => rest

/-- `_parse_relative_date(relative_str)` with `now` explicit. -/
def parseRelativeDate (now : DateTime) (s : String) : Option DateTime :=
  parseRelativeCore now (trimChars (lowerStr s).data)

/-- Does the element's class string contain one of the five structural
marker classes that `_categorize_item` dispatches on? -/
def hasReleaseClassHint (e : SoupElement) : Bool :=
  let cs := String.intercalate " " e.classes
  pyIn "release-feature" cs || pyIn "release-changed" cs ||
    pyIn "release-announcement" cs || pyIn "release-breaking" cs ||
    pyIn "release-issue" cs

/-- An ordered keyword table folded into an if-chain, first match wins,
default `update`; the shape shared by the source's if-chain and the
spec's priority table. -/
def keywordChain : List (List String × String) → String → String
  | [], _ => "update"
  | (kws, cat) :: rest, tl =>
    if keywordMatch tl kws then cat else keywordChain rest tl

/-! ## Theorems -/

lemma keywordChain_eq_find? (table : List (List String × String)) (tl : String) :
    keywordChain table tl =
      (match table.find? (fun p => keywordMatch tl p.1) with
       | some p => p.2
       | none => "update") := by
  induction table with
  | nil => rfl
  | cons hd rest ih =>
    obtain ⟨kws, cat⟩ := hd
    cases h : keywordMatch tl kws <;> simp [keywordChain, List.find?, h, ih]

lemma categorizeText_eq_chain (t : String) :
    categorizeText t = keywordChain specKeywordPriority (lowerStr t) := rfl

/-- C3: for release groups with a present date, `_filter_by_date` keeps a
group iff `cutoff ≤ date ≤ end_date`, both bounds inclusive.  With
`cutoff = 2025-03-01 00:00:00` and `end_date` the end (23:59:59) of
2025-03-31: a group dated exactly at the cutoff passes, one dated one day
earlier does not, one dated exactly at `end_date` passes, and one dated
one second later (2025-04-01 00:00:00) does not. -/
theorem C3_date_filter_inclusive_bounds :
    (∀ (cutoff e d : DateTime) (rs : List Release) (r : Release),
        r.date = some d →
          (r ∈ filterByDate cutoff (some e) rs ↔
            r ∈ rs ∧ DateTime.leb cutoff d = true ∧ DateTime.leb d e = true))
    ∧ (let cutoff : DateTime := ⟨2025, 3, 1, 0, 0, 0⟩
       let e : DateTime := endOfDay ⟨2025, 3, 31, 0, 0, 0⟩
       let rel : Option DateTime → Release :=
         fun d => { date := d, dateStr := "", items := [], url := "u" }
       filterByDate cutoff (some e) [rel (some cutoff)] = [rel (some cutoff)]
       ∧ filterByDate cutoff (some e) [rel (some (cutoff.subSec 86400))] = []
       ∧ cutoff.subSec 86400 = ⟨2025, 2, 28, 0, 0, 0⟩
       ∧ filterByDate cutoff (some e) [rel (some e)] = [rel (some e)]
       ∧ filterByDate cutoff (some e) [rel (some (e.subSec (-1)))] = []
       ∧ e.subSec (-1) = ⟨2025, 4, 1, 0, 0, 0⟩) := by
  constructor
  · intro cutoff e d rs r hr
    simp only [filterByDate, List.mem_filter, hr]
    constructor
    · rintro ⟨h1, h2⟩
      simp only [Bool.and_eq_true] at h2
      exact ⟨h1, h2⟩
    · rintro ⟨h1, h2, h3⟩
      exact ⟨h1, by simp [h2, h3]⟩
  · refine ⟨by decide, by decide, by decide, by decide, by decide, by decide⟩

/-- C3 witness: the membership characterization applied at the concrete
boundary input (a group dated exactly at the cutoff is kept). -/
theorem C3_date_filter_inclusive_bounds_witness :
    ({ date := some ⟨2025, 3, 1, 0, 0, 0⟩, dateStr := "", items := [],
       url := "u" } : Release) ∈
      filterByDate ⟨2025, 3, 1, 0, 0, 0⟩
        (some (endOfDay ⟨2025, 3, 31, 0, 0, 0⟩))
        [{ date := some ⟨2025, 3, 1, 0, 0, 0⟩, dateStr := "", items := [],
           url := "u" }] :=
  (C3_date_filter_inclusive_bounds.1 ⟨2025, 3, 1, 0, 0, 0⟩
      (endOfDay ⟨2025, 3, 31, 0, 0, 0⟩) ⟨2025, 3, 1, 0, 0, 0⟩ _ _ rfl).mpr
    ⟨by decide, by decide, by decide⟩

/-- C1 counterexample: with only a month-count filter active (strict mode
off), an undated release group is nevertheless dropped by the date-range
filter `_filter_by_date` — the strict-mode exemption for undated groups
exists only in the blog scrapers' inline filters, not in
`_filter_by_date`. -/
theorem C1_undated_filter_counterexample :
    strictMode none none = false
    ∧ filterByDate
        (initCutoffDate ⟨2025, 6, 15, 12, 30, 45⟩ (some 12) none none)
        (some (initEndDate ⟨2025, 6, 15, 12, 30, 45⟩ none))
        [{ date := none, dateStr := "Recent",
           items := [{ text := "t", category := "update", urls := [] }],
           url := "u" }] = [] := by
  exact ⟨rfl, rfl⟩

/-- C1 (amended): in the blog scrapers' inline date filter an undated
group is retained exactly when strict mode is off, i.e. exactly when
neither a day-count nor an explicit start date was given (a month-count
filter alone keeps it); the generic `_filter_by_date` drops an undated
group unconditionally. -/
theorem C1_undated_strict_mode (days : Option Nat) (sd : Option DateTime)
    (cutoff : DateTime) (e : Option DateTime) (rs : List Release) (r : Release)
    (h : r.date = none) :
    (r ∈ blogDateFilter (strictMode days sd) cutoff e rs ↔
      r ∈ rs ∧ days = none ∧ sd = none)
    ∧ r ∉ filterByDate cutoff e rs := by
  constructor
  · simp only [blogDateFilter, List.mem_filter, h, strictMode]
    constructor
    · rintro ⟨h1, h2⟩
      simp only [Bool.not_eq_true', Bool.or_eq_false_iff,
        Option.not_isSome_iff_eq_none, ← Option.not_isSome] at h2
      refine ⟨h1, ?_, ?_⟩
      · exact Option.not_isSome_iff_eq_none.mp (by simp [h2.1])
      · exact Option.not_isSome_iff_eq_none.mp (by simp [h2.2])
    · rintro ⟨h1, h2, h3⟩
      subst h2; subst h3
      exact ⟨h1, rfl⟩
  · simp [filterByDate, List.mem_filter, h]

/-- C1 witness: a concrete undated group with a month-count-only
configuration is kept by the blog filter. -/
theorem C1_undated_strict_mode_witness :
    ({ date := none, dateStr := "Recent", items := [], url := "u" } : Release) ∈
      blogDateFilter (strictMode none none) ⟨2024, 6, 20, 0, 0, 0⟩ none
        [{ date := none, dateStr := "Recent", items := [], url := "u" }] :=
  ((C1_undated_strict_mode none none ⟨2024, 6, 20, 0, 0, 0⟩ none _ _ rfl).1).mpr
    ⟨by decide, rfl, rfl⟩

/-- C4: when the primary fetch of a feed source fails with HTTP 404 and a
fallback URL is registered, exactly one GET is issued against the
fallback (the request log is `[url, fb]`) and its HTML result is the
result of the scrape; an HTTP 500, a network error, or a 404 with no
registered fallback each yield `[]` after the single primary GET; and the
per-source loop makes every source's result a function of that source
alone, so a failing source leaves its sibling's result unchanged. -/
theorem C4_fetch_fallback_behavior :
    (∀ (fetch : String → FetchResult) (px ph : String → List Release)
        (url fb body : String),
        fetch url = .httpError 404 → fetch fb = .success body →
          scrapeFeedWithFallback fetch px ph url (some fb) = (ph body, [url, fb]))
    ∧ (∀ (fetch : String → FetchResult) (px ph : String → List Release)
        (url : String) (fb : Option String),
        fetch url = .httpError 500 →
          scrapeFeedWithFallback fetch px ph url fb = ([], [url]))
    ∧ (∀ (fetch : String → FetchResult) (px ph : String → List Release)
        (url : String) (fb : Option String),
        fetch url = .netError →
          scrapeFeedWithFallback fetch px ph url fb = ([], [url]))
    ∧ (∀ (fetch : String → FetchResult) (px ph : String → List Release)
        (url : String),
        fetch url = .httpError 404 →
          scrapeFeedWithFallback fetch px ph url none = ([], [url]))
    ∧ (∀ (fetch : String → FetchResult) (px ph : String → List Release)
        (s1 s2 : String × Option String),
        scrapeAllSources fetch px ph [s1, s2] =
          [(scrapeFeedWithFallback fetch px ph s1.1 s1.2).1,
           (scrapeFeedWithFallback fetch px ph s2.1 s2.2).1]) := by
  refine ⟨?_, ?_, ?_, ?_, ?_⟩
  · intro fetch px ph url fb body h1 h2
    simp [scrapeFeedWithFallback, h1, h2]
  · intro fetch px ph url fb h1
    simp [scrapeFeedWithFallback, h1]
  · intro fetch px ph url fb h1
    simp [scrapeFeedWithFallback, h1]
  · intro fetch px ph url h1
    simp [scrapeFeedWithFallback, h1]
  · intro fetch px ph s1 s2
    simp [scrapeAllSources]

/-- C4 witness: a concrete world where the primary URL 404s, the fallback
succeeds with body `"HTML"`, and a sibling source succeeds: the first
source's result is the parse of `"HTML"` after requests `[primary,
fallback]`, and the sibling still produces its own result. -/
theorem C4_fetch_fallback_behavior_witness :
    (scrapeFeedWithFallback
        (fun u => if u = "https://p/feed.xml" then .httpError 404
                  else if u = "https://p/notes" then .success "HTML"
                  else .success "XML")
        (fun b => [{ date := none, dateStr := b, items := [], url := "x" }])
        (fun b => [{ date := none, dateStr := b, items := [], url := "h" }])
        "https://p/feed.xml" (some "https://p/notes")
      = ([{ date := none, dateStr := "HTML", items := [], url := "h" }],
         ["https://p/feed.xml", "https://p/notes"]))
    ∧ (scrapeAllSources
        (fun u => if u = "https://p/feed.xml" then .httpError 500 else .success "XML")
        (fun b => [{ date := none, dateStr := b, items := [], url := "x" }])
        (fun b => [{ date := none, dateStr := b, items := [], url := "h" }])
        [("https://p/feed.xml", none), ("https://q/feed.xml", none)]
      = [[], [{ date := none, dateStr := "XML", items := [], url := "x" }]]) := by
  constructor
  · exact C4_fetch_fallback_behavior.1 _ _ _ _ _ _ (by decide) (by decide)
  · rw [C4_fetch_fallback_behavior.2.2.2.2]
    decide

/-- C5: a feed entry's date element is resolved through the fixed chain
RSS `pubDate` → Atom `published` (prefixed, then unprefixed) → Atom
`updated` (prefixed, then unprefixed), each later lookup firing only when
every earlier one found no element; in particular an entry carrying both
a `published` and an `updated` element resolves to `published`. -/
theorem C5_feed_date_priority :
    (∀ (entry : List XmlElem) (e : XmlElem),
        elemFind entry "pubDate" = some e → resolveDateElem entry = some e)
    ∧ (∀ (entry : List XmlElem) (e : XmlElem),
        elemFind entry "pubDate" = none →
        elemFind entry "atom:published" = some e →
          resolveDateElem entry = some e)
    ∧ (∀ (entry : List XmlElem) (e : XmlElem),
        elemFind entry "pubDate" = none →
        elemFind entry "atom:published" = none →
        elemFind entry "published" = some e →
          resolveDateElem entry = some e)
    ∧ (∀ (entry : List XmlElem) (e : XmlElem),
        elemFind entry "pubDate" = none →
        elemFind entry "atom:published" = none →
        elemFind entry "published" = none →
        elemFind entry "atom:updated" = some e →
          resolveDateElem entry = some e)
    ∧ (∀ (entry : List XmlElem),
        elemFind entry "pubDate" = none →
        elemFind entry "atom:published" = none →
        elemFind entry "published" = none →
        elemFind entry "atom:updated" = none →
          resolveDateElem entry = elemFind entry "updated") := by
  refine ⟨?_, ?_, ?_, ?_, ?_⟩
  · intro entry e h1
    simp [resolveDateElem, h1]
  · intro entry e h1 h2
    simp [resolveDateElem, h1, h2]
  · intro entry e h1 h2 h3
    simp [resolveDateElem, h1, h2, h3]
  · intro entry e h1 h2 h3 h4
    simp [resolveDateElem, h1, h2, h3, h4]
  · intro entry h1 h2 h3 h4
    simp [resolveDateElem, h1, h2, h3, h4]

/-- C5 witness: a concrete Atom entry carrying both `atom:published` and
`atom:updated` resolves to the `published` element. -/
theorem C5_feed_date_priority_witness :
    resolveDateElem
      [⟨"atom:title", some "Release notes"⟩,
       ⟨"atom:published", some "2025-03-01T00:00:00Z"⟩,
       ⟨"atom:updated", some "2025-03-05T00:00:00Z"⟩]
      = some ⟨"atom:published", some "2025-03-01T00:00:00Z"⟩ :=
  C5_feed_date_priority.2.1 _ _ (by decide) (by decide)

/-- C10: without an explicit start date the cutoff is always a midnight:
with a truthy day-count `N` (whatever the month option) it is midnight of
`now - N days`; with a truthy month-count `M` it is midnight of
`now - 30*M days`; with no time option it is midnight of `now - 360 days`
(12·30), not one calendar year.  Concretely, constructed at
2025-06-15 12:30:45 the default cutoff is 2024-06-20 00:00:00 — five days
later than the same calendar date one year earlier — and a 2-day filter
constructed at 2025-03-10 14:00:00 cuts off at 2025-03-08 00:00:00,
covering all of the day before yesterday. -/
theorem C10_cutoff_construction :
    (∀ (now : DateTime) (m : Option Nat) (N : Nat), N ≠ 0 →
        initCutoffDate now m (some N) none =
          truncMidnight (now.subSec (86400 * (N : Int))))
    ∧ (∀ (now : DateTime) (M : Nat), M ≠ 0 →
        initCutoffDate now (some M) none none =
          truncMidnight (now.subSec (86400 * 30 * (M : Int))))
    ∧ (∀ now : DateTime,
        initCutoffDate now none none none =
          truncMidnight (now.subSec (86400 * 360)))
    ∧ (∀ t : DateTime,
        (truncMidnight t).hour = 0 ∧ (truncMidnight t).minute = 0
        ∧ (truncMidnight t).second = 0 ∧ (truncMidnight t).year = t.year
        ∧ (truncMidnight t).month = t.month ∧ (truncMidnight t).day = t.day)
    ∧ initCutoffDate ⟨2025, 6, 15, 12, 30, 45⟩ none none none
        = ⟨2024, 6, 20, 0, 0, 0⟩
    ∧ (⟨2024, 6, 20, 0, 0, 0⟩ : DateTime) ≠ ⟨2024, 6, 15, 0, 0, 0⟩
    ∧ initCutoffDate ⟨2025, 3, 10, 14, 0, 0⟩ none (some 2) none
        = ⟨2025, 3, 8, 0, 0, 0⟩ := by
  refine ⟨?_, ?_, ?_, ?_, by decide, by decide, by decide⟩
  · intro now m N hN
    simp [initCutoffDate, optTruthy, hN]
  · intro now M hM
    simp [initCutoffDate, optTruthy, hM]
  · intro now
    simp [initCutoffDate, optTruthy]
  · intro t
    exact ⟨rfl, rfl, rfl, rfl, rfl, rfl⟩

/-- C10 witness: the day-count and month-count clauses applied at
concrete inputs (a 2-day filter at 2025-03-10 14:00:00, a 1-month filter
at the same instant). -/
theorem C10_cutoff_construction_witness :
    initCutoffDate ⟨2025, 3, 10, 14, 0, 0⟩ (some 7) (some 2) none
      = truncMidnight (DateTime.subSec ⟨2025, 3, 10, 14, 0, 0⟩ (86400 * 2))
    ∧ initCutoffDate ⟨2025, 3, 10, 14, 0, 0⟩ (some 1) none none
      = truncMidnight (DateTime.subSec ⟨2025, 3, 10, 14, 0, 0⟩ (86400 * 30)) :=
  ⟨C10_cutoff_construction.1 _ (some 7) 2 (by decide),
   C10_cutoff_construction.2.1 _ 1 (by decide)⟩

/-- C2: on a fragment with no recognized structural class hint the
classifier lower-cases the text and tests the ordered keyword groups with
first match winning, in the fixed priority security → breaking →
public-preview → ga → deprecated → fixed → issue → change → announcement
→ libraries, defaulting to `update`; in particular
"Security patch introduces a breaking change" is classified `security`,
not `breaking`. -/
theorem C2_classifier_priority :
    (∀ t : String, categorizeText t = specFirstMatchCategory t)
    ∧ (∀ (e : SoupElement) (t : String),
        hasReleaseClassHint e = false → t ≠ "" →
          categorizeItem (some e) (some t) = categorizeText t)
    ∧ categorizeItem none (some "Security patch introduces a breaking change")
        = "security"
    ∧ categorizeText "Security patch introduces a breaking change" ≠ "breaking" := by
  refine ⟨?_, ?_, ?_, ?_⟩
  · intro t
    rw [categorizeText_eq_chain, keywordChain_eq_find?]
    rfl
  · intro e t he ht
    simp only [hasReleaseClassHint, Bool.or_eq_false_iff] at he
    obtain ⟨⟨⟨⟨h1, h2⟩, h3⟩, h4⟩, h5⟩ := he
    have hc : classHintCategory e = none := by
      unfold classHintCategory
      simp [h1, h2, h3, h4, h5]
    simp [categorizeItem, hc, textForCategorize, ht]
  · decide
  · decide

/-- C2 witness: the hint-free element clause applied at a concrete
element with no marker class and concrete text. -/
theorem C2_classifier_priority_witness :
    categorizeItem (some ⟨["devsite-article"], "Fixed a crash"⟩)
        (some "Fixed a crash") = categorizeText "Fixed a crash"
    ∧ categorizeText "Fixed a crash" = "fixed" :=
  ⟨C2_classifier_priority.2.1 ⟨["devsite-article"], "Fixed a crash"⟩
      "Fixed a crash" (by decide) (by decide),
   by decide⟩

lemma categorizeText_mem_valid (t : String) :
    categorizeText t ∈ VALID_CATEGORIES := by
  unfold categorizeText
  dsimp only
  repeat' split
  all_goals decide

lemma classHintCategory_mem_valid (e : SoupElement) (c : String)
    (h : classHintCategory e = some c) : c ∈ VALID_CATEGORIES := by
  unfold classHintCategory at h
  dsimp only at h
  repeat' split at h
  all_goals simp_all
  all_goals (subst h; decide)

lemma updateChain_mem_valid (s : String) :
    (if s = "" then "update" else categorizeText s) ∈ VALID_CATEGORIES := by
  split
  · decide
  · exact categorizeText_mem_valid s

lemma categorizeItem_mem_valid (e : Option SoupElement) (t : Option String) :
    categorizeItem e t ∈ VALID_CATEGORIES := by
  rcases e with _ | e
  · exact updateChain_mem_valid (textForCategorize none t)
  · rcases h : classHintCategory e with _ | c
    · have he : categorizeItem (some e) t =
          (if textForCategorize (some e) t = "" then "update"
           else categorizeText (textForCategorize (some e) t)) := by
        unfold categorizeItem
        dsimp only
        rw [h]
      rw [he]
      exact updateChain_mem_valid _
    · have he : categorizeItem (some e) t = c := by
        unfold categorizeItem
        dsimp only
        rw [h]
      rw [he]
      exact classHintCategory_mem_valid e c h

lemma firebaseSiblingStep_mem_valid (acc : List ReleaseItem) (sib : FbSibling)
    (hacc : ∀ i ∈ acc, i.category ∈ VALID_CATEGORIES) :
    ∀ i ∈ firebaseSiblingStep acc sib, i.category ∈ VALID_CATEGORIES := by
  intro i hi
  rcases sib with lis | f | f | _
  · unfold firebaseSiblingStep at hi
    dsimp only at hi
    rcases List.mem_append.mp hi with h | h
    · exact hacc i h
    · obtain ⟨li, _, hli⟩ := List.mem_filterMap.mp h
      split at hli
      · cases hli
        show categorizeItem (some li.toElement) (some li.text) ∈ VALID_CATEGORIES
        exact categorizeItem_mem_valid _ _
      · cases hli
  · unfold firebaseSiblingStep at hi
    dsimp only at hi
    split at hi
    · rcases List.mem_append.mp hi with h | h
      · exact hacc i h
      · rw [List.mem_singleton] at h
        subst h
        show categorizeItem (some f.toElement) (some f.text) ∈ VALID_CATEGORIES
        exact categorizeItem_mem_valid _ _
    · exact hacc i hi
  · unfold firebaseSiblingStep at hi
    dsimp only at hi
    split at hi
    · rcases List.mem_append.mp hi with h | h
      · exact hacc i h
      · rw [List.mem_singleton] at h
        subst h
        show categorizeItem (some f.toElement) (some f.text) ∈ VALID_CATEGORIES
        exact categorizeItem_mem_valid _ _
    · exact hacc i hi
  · exact hacc i hi

lemma firebaseSiblingItems_aux (sibs : List FbSibling) (acc : List ReleaseItem)
    (hacc : ∀ i ∈ acc, i.category ∈ VALID_CATEGORIES) :
    ∀ i ∈ sibs.foldl firebaseSiblingStep acc, i.category ∈ VALID_CATEGORIES := by
  induction sibs generalizing acc with
  | nil => exact hacc
  | cons sib rest ih =>
    exact ih _ (firebaseSiblingStep_mem_valid acc sib hacc)

lemma unstructuredStep_mem_valid (cutoff : DateTime) (url : String)
    (rs : List Release) (c : UnstructuredCand)
    (hrs : ∀ r ∈ rs, ∀ i ∈ r.items, i.category ∈ VALID_CATEGORIES) :
    ∀ r ∈ unstructuredStep cutoff url rs c, ∀ i ∈ r.items,
      i.category ∈ VALID_CATEGORIES := by
  intro r hr i hi
  unfold unstructuredStep at hr
  rcases hc : c.date with _ | d
  · rw [hc] at hr
    exact hrs r hr i hi
  · rw [hc] at hr
    dsimp only at hr
    split at hr
    · split at hr
      · split at hr
        · exact hrs r hr i hi
        · rcases List.mem_append.mp hr with h | h
          · exact hrs r h i hi
          · rw [List.mem_singleton] at h
            subst h
            rw [List.mem_singleton] at hi
            subst hi
            show categorizeItem (some ⟨c.classes, c.text⟩) (some c.text) ∈ VALID_CATEGORIES
            exact categorizeItem_mem_valid _ _
      · exact hrs r hr i hi
    · exact hrs r hr i hi

lemma parseUnstructuredReleases_mem_valid (cutoff : DateTime) (url : String)
    (cands : List UnstructuredCand) (init : List Release)
    (hinit : ∀ r ∈ init, ∀ i ∈ r.items, i.category ∈ VALID_CATEGORIES) :
    ∀ r ∈ parseUnstructuredReleases cutoff url init cands, ∀ i ∈ r.items,
      i.category ∈ VALID_CATEGORIES := by
  unfold parseUnstructuredReleases
  induction cands generalizing init with
  | nil => exact hinit
  | cons c rest ih =>
    exact ih _ (unstructuredStep_mem_valid cutoff url init c hinit)

/-- C9: the category of every emitted item is one of the eleven fixed
values: the classifier itself only produces members of
`VALID_CATEGORIES`, the AntiGravity accordion mapping only produces
members, the blog paths' hard-coded `announcement` is a member, and the
items built by the Firebase sibling walk and the unstructured pass (whose
other item sources all go through the classifier) therefore only carry
members. -/
theorem C9_category_enum_closed :
    (∀ (e : Option SoupElement) (t : Option String),
        categorizeItem e t ∈ VALID_CATEGORIES)
    ∧ (∀ title : String, antigravityAccordionCategory title ∈ VALID_CATEGORIES)
    ∧ "announcement" ∈ VALID_CATEGORIES
    ∧ (∀ (sibs : List FbSibling), ∀ i ∈ firebaseSiblingItems sibs,
        i.category ∈ VALID_CATEGORIES)
    ∧ (∀ (cutoff : DateTime) (url : String) (cands : List UnstructuredCand),
        ∀ r ∈ parseUnstructuredReleases cutoff url [] cands, ∀ i ∈ r.items,
          i.category ∈ VALID_CATEGORIES) := by
  refine ⟨categorizeItem_mem_valid, ?_, by decide, ?_, ?_⟩
  · intro title
    unfold antigravityAccordionCategory
    repeat' split
    all_goals decide
  · intro sibs
    exact firebaseSiblingItems_aux sibs [] (by intro i hi; cases hi)
  · intro cutoff url cands
    exact parseUnstructuredReleases_mem_valid cutoff url cands []
      (by intro r hr; cases hr)

/-- C9 witness: the Firebase clause applied to a concrete sibling list
(the emitted item's category is in the enum). -/
theorem C9_category_enum_closed_witness :
    ∀ i ∈ firebaseSiblingItems
        [FbSibling.paraNode ⟨[], "Fixed a crash in the SDK", "<p>x</p>", []⟩],
      i.category ∈ VALID_CATEGORIES :=
  C9_category_enum_closed.2.2.2.1
    [FbSibling.paraNode ⟨[], "Fixed a crash in the SDK", "<p>x</p>", []⟩]

lemma releasesContainText_iff (rs : List Release) (t : String) :
    releasesContainText rs t = true ↔ t ∈ releaseItemTexts rs := by
  simp only [releasesContainText, releaseItemTexts, List.any_eq_true,
    List.mem_flatten, List.mem_map]
  constructor
  · rintro ⟨r, hr, i, hi, he⟩
    exact ⟨r.items.map ReleaseItem.text, ⟨r, hr, rfl⟩,
      List.mem_map.mpr ⟨i, hi, of_decide_eq_true he⟩⟩
  · rintro ⟨l, ⟨r, hr, rfl⟩, hm⟩
    obtain ⟨i, hi, he⟩ := List.mem_map.mp hm
    exact ⟨r, hr, i, hi, decide_eq_true he⟩

lemma unstructuredStep_texts (cutoff : DateTime) (url : String)
    (rs : List Release) (c : UnstructuredCand) :
    unstructuredStep cutoff url rs c = rs ∨
      (c.raw ∉ releaseItemTexts rs ∧
        releaseItemTexts (unstructuredStep cutoff url rs c) =
          releaseItemTexts rs ++ [c.raw]) := by
  unfold unstructuredStep
  rcases hc : c.date with _ | d
  · exact Or.inl rfl
  · dsimp only
    split
    · split
      · rcases hdup : releasesContainText rs c.raw with _ | _
        · refine Or.inr ⟨?_, ?_⟩
          · intro hmem
            rw [← releasesContainText_iff] at hmem
            rw [hmem] at hdup
            cases hdup
          · simp [hdup, releaseItemTexts]
        · simp [hdup]
      · exact Or.inl rfl
    · exact Or.inl rfl

lemma parseUnstructured_texts_invariant (cutoff : DateTime) (url : String)
    (cands : List UnstructuredCand) :
    ∀ rs : List Release, (releaseItemTexts rs).Nodup →
      (releaseItemTexts (parseUnstructuredReleases cutoff url rs cands)).Nodup
      ∧ ∀ t ∈ releaseItemTexts rs,
          t ∈ releaseItemTexts (parseUnstructuredReleases cutoff url rs cands)
          ∧ (releaseItemTexts (parseUnstructuredReleases cutoff url rs cands)).count t
              = (releaseItemTexts rs).count t := by
  induction cands with
  | nil => exact fun rs h => ⟨h, fun t ht => ⟨ht, rfl⟩⟩
  | cons c rest ih =>
    intro rs h
    have hfold : parseUnstructuredReleases cutoff url rs (c :: rest)
        = parseUnstructuredReleases cutoff url (unstructuredStep cutoff url rs c) rest := rfl
    rcases unstructuredStep_texts cutoff url rs c with he | ⟨hnot, he⟩
    · rw [hfold, he]
      exact ih rs h
    · rw [hfold]
      have h2 : (releaseItemTexts (unstructuredStep cutoff url rs c)).Nodup := by
        rw [he]
        simp [List.nodup_append, h, hnot]
      obtain ⟨hn, hrest⟩ := ih _ h2
      refine ⟨hn, fun t ht => ?_⟩
      have htmem : t ∈ releaseItemTexts (unstructuredStep cutoff url rs c) := by
        rw [he]
        exact List.mem_append_left _ ht
      obtain ⟨hm, hcnt⟩ := hrest t htmem
      have hne : c.raw ≠ t := fun hh => hnot (hh ▸ ht)
      refine ⟨hm, ?_⟩
      rw [hcnt, he]
      simp [List.count_append, List.count_singleton', hne]

/-- C7: within one source's unstructured scan, a candidate whose raw
markup equals the text of an already collected item is dropped, so raw
texts stay duplicate-free along the pass and every already collected raw
text occurs exactly once afterwards; and through the `_scrape_html`
strategy ladder (unstructured runs only when structured found nothing) a
node captured by the structured pass still occurs exactly once in the
collected output. -/
theorem C7_dedup_exact_once (cutoff : DateTime) (url : String)
    (init : List Release) (cands : List UnstructuredCand)
    (h : (releaseItemTexts init).Nodup) :
    (releaseItemTexts (parseUnstructuredReleases cutoff url init cands)).Nodup
    ∧ (∀ t ∈ releaseItemTexts init,
        (releaseItemTexts (parseUnstructuredReleases cutoff url init cands)).count t
          = 1)
    ∧ (releaseItemTexts (scrapeHtmlCollect cutoff url init cands)).Nodup := by
  obtain ⟨hn, hrest⟩ := parseUnstructured_texts_invariant cutoff url cands init h
  refine ⟨hn, fun t ht => ?_, ?_⟩
  · rw [(hrest t ht).2]
    exact List.count_eq_one_of_mem h ht
  · unfold scrapeHtmlCollect
    split
    · exact hn
    · exact h

/-- C7 witness: a concrete run where the structured pass already holds
the node's raw markup and the unstructured pass sees the same markup
again: the raw text occurs exactly once afterwards. -/
theorem C7_dedup_exact_once_witness :
    (releaseItemTexts
        (parseUnstructuredReleases ⟨2025, 1, 1, 0, 0, 0⟩ "u"
          [{ date := some ⟨2025, 2, 1, 0, 0, 0⟩, dateStr := "February 1, 2025",
             items := [{ text := "<div>Cloud Run now supports sidecars</div>",
                         category := "update", urls := [] }],
             url := "u" }]
          [{ classes := [], text := "Cloud Run now supports sidecars everywhere",
             raw := "<div>Cloud Run now supports sidecars</div>", hrefs := [],
             date := some ⟨2025, 2, 1, 0, 0, 0⟩,
             dateStr := "February 1, 2025" }])).count
      "<div>Cloud Run now supports sidecars</div>" = 1 :=
  (C7_dedup_exact_once ⟨2025, 1, 1, 0, 0, 0⟩ "u" _ _ (by decide)).2.1
    "<div>Cloud Run now supports sidecars</div>" (by decide)

/-- C8: the Firebase header/sibling extraction path violates the
absolute-URL invariant.  A dated Firebase header followed by a list item
whose anchor href is the relative `/docs/firestore/migrate` produces —
through the full `_scrape_html` post-processing (URL backfill, date
filter, category filter) — an emitted item whose attached URL is still
the relative `/docs/firestore/migrate`: the sibling walk of
`_parse_firebase_releases` never calls `_normalize_urls`, which would
have produced `https://cloud.google.com/docs/firestore/migrate`. -/
theorem C8_firebase_relative_url_escapes :
    scrapeHtmlPost "https://firebase.google.com/support/release-notes/android"
        ⟨2025, 1, 1, 0, 0, 0⟩ none none
        (parseFirebaseSection
          "https://firebase.google.com/support/release-notes/android"
          ⟨2025, 11, 20, 0, 0, 0⟩ "November 20, 2025" "November 20, 2025"
          [FbSibling.listNode
            [⟨[], "See the migration guide for details",
              "<li>See the migration guide for details</li>",
              ["/docs/firestore/migrate"]⟩]])
      = [{ date := some ⟨2025, 11, 20, 0, 0, 0⟩,
           dateStr := "November 20, 2025",
           items := [{ text := "<li>See the migration guide for details</li>",
                       category := "update",
                       urls := ["/docs/firestore/migrate"] }],
           url := "https://firebase.google.com/support/release-notes/android" }]
    ∧ pyStartsWith "/docs/firestore/migrate" "http" = false
    ∧ normalizeUrls "https://cloud.google.com" ["/docs/firestore/migrate"]
        = ["https://cloud.google.com/docs/firestore/migrate"] := by
  refine ⟨by decide, by decide, by decide⟩

lemma takeWhile_append_all {p : Char → Bool} {l1 : List Char} (l2 : List Char)
    (h1 : ∀ a ∈ l1, p a = true) :
    (l1 ++ l2).takeWhile p = l1 ++ l2.takeWhile p
    ∧ (l1 ++ l2).dropWhile p = l2.dropWhile p := by
  induction l1 with
  | nil => simp
  | cons a as ih =>
    have hpa : p a = true := h1 a (List.mem_cons_self a as)
    have hih := ih fun b hb => h1 b (List.mem_cons_of_mem a hb)
    simp [List.takeWhile_cons, List.dropWhile_cons, hpa, hih.1, hih.2]

lemma matchAgo_append (ds : List Char) (c : Char) (l : List Char)
    (h1 : ds ≠ []) (h2 : ∀ a ∈ ds, a.isDigit = true)
    (hc : c.isDigit = false) (hw : isPyWs c = false) :
    matchAgo (ds ++ c :: l) =
      match unitAlternatives.find? (unitMatchesAt (c :: l)) with
      | some u => some (digitsVal ds, u)
      | none => none := by
  unfold matchAgo
  obtain ⟨ht, hd⟩ := takeWhile_append_all (p := Char.isDigit) (c :: l) h2
  rw [ht, hd]
  simp only [List.takeWhile_cons, List.dropWhile_cons, hc, List.append_nil,
    Bool.false_eq_true, if_false, hw]
  rw [if_neg (by simp [h1])]

lemma parseRelativeCore_ago (now : DateTime) (l : List Char) (n : Nat)
    (u : List Char) (k : Int) (hm : matchAgo l = some (n, u))
    (hk : unitSeconds u = some k) :
    parseRelativeCore now l = some (now.subSec (k * (n : Int))) := by
  unfold parseRelativeCore
  rw [hm]
  dsimp only
  rw [hk]

lemma parseRelativeCore_ago_concrete (now : DateTime) (ds : List Char)
    (c : Char) (l : List Char) (u : List Char) (k : Int)
    (h1 : ds ≠ []) (h2 : ∀ a ∈ ds, a.isDigit = true)
    (hc : c.isDigit = false) (hw : isPyWs c = false)
    (hf : unitAlternatives.find? (unitMatchesAt (c :: l)) = some u)
    (hk : unitSeconds u = some k) :
    parseRelativeCore now (ds ++ c :: l) =
      some (now.subSec (k * (digitsVal ds : Int))) := by
  have hm : matchAgo (ds ++ c :: l) = some (digitsVal ds, u) := by
    rw [matchAgo_append ds c l h1 h2 hc hw, hf]
  exact parseRelativeCore_ago now _ _ _ _ hm hk

/-- C6: a relative date string `<n><unit> ago` (any of the regex's unit
alternatives `d h m min hr day hour minute week w`, bare or with plural
`s`, `<n>` any nonempty digit run) normalizes to the reference instant
minus `n` times the unit's duration, where the alternatives resolve to
86400 s (days), 3600 s (hours), 60 s (minutes) and 604800 s (weeks);
"2d ago" at 2025-03-10 14:00:00 gives exactly 2025-03-08 14:00:00, the
reference minus 2 days.  A month-day string without a year gets the
current year and is rolled back one year exactly when that date would be
in the future: "Dec 10" evaluated at 2025-01-15 gives 2024-12-10, and in
general the year-less branch keeps month, day and time-of-day while
choosing `now.year - 1` iff the current-year reading lies after `now`. -/
theorem C6_relative_date_normalization :
    (∀ (ds u : List Char) (plural : Bool) (now : DateTime),
        ds ≠ [] → (∀ a ∈ ds, a.isDigit = true) → u ∈ unitAlternatives →
          parseRelativeCore now
              (ds ++ (u ++ (if plural then 's' :: ' ' :: "ago".data
                            else ' ' :: "ago".data)))
            = some (now.subSec ((unitSeconds u).getD 0 * (digitsVal ds : Int))))
    ∧ unitAlternatives.map unitSeconds
        = [some 86400, some 3600, some 60, some 60, some 3600,
           some 86400, some 3600, some 60, some 604800, some 604800]
    ∧ parseRelativeDate ⟨2025, 3, 10, 14, 0, 0⟩ "2d ago"
        = some ⟨2025, 3, 8, 14, 0, 0⟩
    ∧ DateTime.subSec ⟨2025, 3, 10, 14, 0, 0⟩ (2 * 86400)
        = ⟨2025, 3, 8, 14, 0, 0⟩
    ∧ parseRelativeDate ⟨2025, 1, 15, 0, 0, 0⟩ "Dec 10"
        = some ⟨2024, 12, 10, 0, 0, 0⟩
    ∧ (∀ now parsed : DateTime,
        (applyNoYearRule now parsed).month = parsed.month
        ∧ (applyNoYearRule now parsed).day = parsed.day
        ∧ (applyNoYearRule now parsed).hour = parsed.hour
        ∧ (applyNoYearRule now parsed).minute = parsed.minute
        ∧ (applyNoYearRule now parsed).second = parsed.second
        ∧ ((applyNoYearRule now parsed).year = now.year - 1 ↔
            DateTime.ltb now { parsed with year := now.year } = true)
        ∧ ((applyNoYearRule now parsed).year = now.year ↔
            DateTime.ltb now { parsed with year := now.year } = false))
    ∧ (∀ (now : DateTime) (l : List Char) (p : DateTime),
        matchAgo l = none →
        subInChars "just now".data l = false →
        l ≠ "now".data →
        subInChars "yesterday".data l = false →
        parseDateWithYear l = none →
        parseMonthDayNoYear l = some p →
          parseRelativeCore now l = some (applyNoYearRule now p)) := by
  refine ⟨?_, by decide, by decide, by decide, by decide, ?_, ?_⟩
  · intro ds u plural now h1 h2 hu
    simp only [unitAlternatives, List.mem_cons, List.not_mem_nil, or_false] at hu
    rcases hu with rfl | rfl | rfl | rfl | rfl | rfl | rfl | rfl | rfl | rfl <;>
      cases plural
    · exact parseRelativeCore_ago_concrete now ds 'd' (' ' :: "ago".data)
        "d".data 86400 h1 h2 (by decide) (by decide) (by decide) (by decide)
    · exact parseRelativeCore_ago_concrete now ds 'd' ('s' :: ' ' :: "ago".data)
        "d".data 86400 h1 h2 (by decide) (by decide) (by decide) (by decide)
    · exact parseRelativeCore_ago_concrete now ds 'h' (' ' :: "ago".data)
        "h".data 3600 h1 h2 (by decide) (by decide) (by decide) (by decide)
    · exact parseRelativeCore_ago_concrete now ds 'h' ('s' :: ' ' :: "ago".data)
        "h".data 3600 h1 h2 (by decide) (by decide) (by decide) (by decide)
    · exact parseRelativeCore_ago_concrete now ds 'm' (' ' :: "ago".data)
        "m".data 60 h1 h2 (by decide) (by decide) (by decide) (by decide)
    · exact parseRelativeCore_ago_concrete now ds 'm' ('s' :: ' ' :: "ago".data)
        "m".data 60 h1 h2 (by decide) (by decide) (by decide) (by decide)
    · exact parseRelativeCore_ago_concrete now ds 'm' ("in ago".data)
        "min".data 60 h1 h2 (by decide) (by decide) (by decide) (by decide)
    · exact parseRelativeCore_ago_concrete now ds 'm' ("ins ago".data)
        "min".data 60 h1 h2 (by decide) (by decide) (by decide) (by decide)
    · exact parseRelativeCore_ago_concrete now ds 'h' ("r ago".data)
        "hr".data 3600 h1 h2 (by decide) (by decide) (by decide) (by decide)
    · exact parseRelativeCore_ago_concrete now ds 'h' ("rs ago".data)
        "hr".data 3600 h1 h2 (by decide) (by decide) (by decide) (by decide)
    · exact parseRelativeCore_ago_concrete now ds 'd' ("ay ago".data)
        "day".data 86400 h1 h2 (by decide) (by decide) (by decide) (by decide)
    · exact parseRelativeCore_ago_concrete now ds 'd' ("ays ago".data)
        "day".data 86400 h1 h2 (by decide) (by decide) (by decide) (by decide)
    · exact parseRelativeCore_ago_concrete now ds 'h' ("our ago".data)
        "hour".data 3600 h1 h2 (by decide) (by decide) (by decide) (by decide)
    · exact parseRelativeCore_ago_concrete now ds 'h' ("ours ago".data)
        "hour".data 3600 h1 h2 (by decide) (by decide) (by decide) (by decide)
    · exact parseRelativeCore_ago_concrete now ds 'm' ("inute ago".data)
        "minute".data 60 h1 h2 (by decide) (by decide) (by decide) (by decide)
    · exact parseRelativeCore_ago_concrete now ds 'm' ("inutes ago".data)
        "minute".data 60 h1 h2 (by decide) (by decide) (by decide) (by decide)
    · exact parseRelativeCore_ago_concrete now ds 'w' ("eek ago".data)
        "week".data 604800 h1 h2 (by decide) (by decide) (by decide) (by decide)
    · exact parseRelativeCore_ago_concrete now ds 'w' ("eeks ago".data)
        "week".data 604800 h1 h2 (by decide) (by decide) (by decide) (by decide)
    · exact parseRelativeCore_ago_concrete now ds 'w' (' ' :: "ago".data)
        "w".data 604800 h1 h2 (by decide) (by decide) (by decide) (by decide)
    · exact parseRelativeCore_ago_concrete now ds 'w' ('s' :: ' ' :: "ago".data)
        "w".data 604800 h1 h2 (by decide) (by decide) (by decide) (by decide)
  · intro now parsed
    unfold applyNoYearRule
    rcases hlt : DateTime.ltb now { parsed with year := now.year } with _ | _ <;>
      (simp [hlt]; try omega)
  · intro now l p hago hjust hnow hyest hyear hnoyear
    unfold parseRelativeCore
    rw [hago, hjust, hyear, hnoyear]
    simp [hnow, hyest]

/-- C6 witness: the general `ago` clause applied at digit run "2", unit
"d", no plural, reference 2025-03-10 14:00:00; and the year-less glue
clause applied to "dec 10" at 2025-01-15, every guard discharged by
evaluation. -/
theorem C6_relative_date_normalization_witness :
    parseRelativeCore ⟨2025, 3, 10, 14, 0, 0⟩
        (['2'] ++ ("d".data ++ ' ' :: "ago".data))
      = some (DateTime.subSec ⟨2025, 3, 10, 14, 0, 0⟩
          ((unitSeconds "d".data).getD 0 * (digitsVal ['2'] : Int)))
    ∧ parseRelativeCore ⟨2025, 1, 15, 0, 0, 0⟩ "dec 10".data
      = some (applyNoYearRule ⟨2025, 1, 15, 0, 0, 0⟩ ⟨1900, 12, 10, 0, 0, 0⟩) :=
  ⟨C6_relative_date_normalization.1 ['2'] "d".data false ⟨2025, 3, 10, 14, 0, 0⟩
      (by decide) (by decide) (by decide),
   C6_relative_date_normalization.2.2.2.2.2.2 ⟨2025, 1, 15, 0, 0, 0⟩
      "dec 10".data ⟨1900, 12, 10, 0, 0, 0⟩ (by decide) (by decide) (by decide)
      (by decide) (by decide) (by decide)⟩

end Changelog
